import Mathlib

set_option autoImplicit false

/-
Verification development for the travel-ai-vercel repository.

The repository consists of successive revisions of one Vercel serverless
handler (src/api/generate.js and src/unnamed/part_000).  Each revision
proxies a POST request to the Wordware "released app" API and normalises
the upstream response.  This file gives a shallow embedding of the three
handler revisions and of the helper functions of the final revision
(assembleFromStreamLines, extractVisibleFromJsonBlob, extractBetweenMarkers,
cleanupJsonSlice, tryParseJson, findLastBalancedJson), and proves the
specification claims about them.

Modelling conventions:
  * JavaScript strings are Lean `String`s, manipulated at the `List Char`
    level (JS string indices are modelled as character positions).
  * `JSON.parse` is modelled by `parseJson` below, a standard JSON grammar
    recogniser.  JSON numbers are restricted to integer numerals (no
    fraction/exponent part); every concrete input appearing in the spec and
    the claims uses integer numerals only.
  * `undefined` is modelled by `Option.none`; JS truthiness by `jsTruthy`.
  * Engine-specific exception message texts (V8 SyntaxError/TypeError
    strings) are modelled by fixed representative strings; no claim
    depends on their exact contents.
-/

/-- The left-brace character.  It is written via its code point so that
string literals in this file stay free of brace characters. -/
def lbrace : Char := Char.ofNat 123

/-- The right-brace character. -/
def rbrace : Char := Char.ofNat 125

/-- Whitespace accepted between JSON tokens by `JSON.parse`
(space, tab, line feed, carriage return). -/
def isJsonWs (c : Char) : Bool :=
  c == ' ' || c == '\t' || c == '\n' || c == '\r'

/-- Drop leading JSON whitespace. -/
def skipWs (cs : List Char) : List Char := cs.dropWhile isJsonWs

/-- Whitespace removed by JavaScript `String.prototype.trim`
(ASCII whitespace plus the common Unicode space characters that occur in
practice: NBSP, BOM, LS, PS). -/
def isJsWs (c : Char) : Bool :=
  c == ' ' || c == '\t' || c == '\n' || c == '\r' ||
  c.toNat == 11 || c.toNat == 12 || c.toNat == 0xA0 || c.toNat == 0xFEFF ||
  c.toNat == 0x2028 || c.toNat == 0x2029

/-- Character-level model of JS `s.trim()`. -/
def trimChars (cs : List Char) : List Char :=
  ((cs.dropWhile isJsWs).reverse.dropWhile isJsWs).reverse

/-- JS `s.trim()`. -/
def jsTrim (s : String) : String := String.mk (trimChars s.data)

/-- Helper for `splitOnNl`: JS `s.split(c)` accumulator. -/
def splitOnCharAux (c : Char) : List Char → List Char → List (List Char)
  | [], acc => [acc.reverse]
  | x :: t, acc =>
    if x == c then acc.reverse :: splitOnCharAux c t []
    else splitOnCharAux c t (x :: acc)

/-- JS `s.split('\n')` (always returns at least one element). -/
def splitOnNl (s : String) : List String :=
  (splitOnCharAux '\n' s.data []).map String.mk

/-- Index of the first occurrence of `pat` in a character list at or after
the current position, counting from `i`; models JS `String.prototype.indexOf`. -/
def firstOcc (pat : List Char) : List Char → Nat → Option Nat
  | [], i => if pat.isPrefixOf ([] : List Char) then some i else none
  | c :: t, i =>
    if pat.isPrefixOf (c :: t) then some i else firstOcc pat t (i + 1)

/-- JS `s.includes(pat)`. -/
def strIncludes (s pat : String) : Bool := (firstOcc pat.data s.data 0).isSome

/-- Concatenation of a list of strings in order. -/
def concatAll : List String → String
  | [] => ""
  | s :: t => s ++ concatAll t

/-- JS `s.slice(0, n)`. -/
def takeStr (n : Nat) (s : String) : String := String.mk (s.data.take n)

/-- JS `s.slice(-n)`: the last `n` characters (the whole string if shorter). -/
def takeRightStr (n : Nat) (s : String) : String :=
  String.mk ((s.data.reverse.take n).reverse)

/-- JSON values (the result type of the modelled `JSON.parse`).  Object
fields are kept in insertion order, as JavaScript objects do. -/
inductive Json where
  | null
  | bool (b : Bool)
  | num (n : Int)
  | str (s : String)
  | arr (elements : List Json)
  | obj (fields : List (String × Json))

/-- Look up a key in an object's field list (first match; the parser keeps
at most one binding per key, mirroring JavaScript object semantics). -/
def getField : List (String × Json) → String → Option Json
  | [], _ => none
  | (k2, v) :: t, k => if k2 = k then some v else getField t k

/-- Insert a field with JavaScript duplicate-key semantics: a repeated key
keeps its first position but takes the last value. -/
def insertField : List (String × Json) → String → Json → List (String × Json)
  | [], k, v => [(k, v)]
  | (k2, v2) :: t, k, v =>
    if k2 = k then (k, v) :: t else (k2, v2) :: insertField t k v

/-- JS property read `v[k]` for our JSON values: `none` models `undefined`. -/
def jsGet (v : Json) (k : String) : Option Json :=
  match v with
  | .obj fs => getField fs k
  | _ => none

/-- JS `typeof v === 'string' ? v : undefined` for the property `k`. -/
def strField (v : Json) (k : String) : Option String :=
  match jsGet v k with
  | some (.str s) => some s
  | _ => none

/-- JavaScript truthiness of a JSON value. -/
def jsTruthy : Json → Bool
  | .null => false
  | .bool b => b
  | .num n => n ≠ 0
  | .str s => s ≠ ""
  | .arr _ => true
  | .obj _ => true

/-- Truthiness of a possibly-`undefined` value. -/
def jsTruthyOpt : Option Json → Bool
  | none => false
  | some v => jsTruthy v

/-- JS `typeof v === 'object'` for defined non-null values
(objects and arrays). -/
def isObjectType : Json → Bool
  | .obj _ => true
  | .arr _ => true
  | _ => false

/-- JS `a || b` where `a` is a possibly-`undefined` property read. -/
def jsOr (o : Option Json) (fallback : Json) : Json :=
  match o with
  | some v => if jsTruthy v then v else fallback
  | none => fallback

/-- Value of a hexadecimal digit. -/
def hexVal (c : Char) : Option Nat :=
  if '0' ≤ c ∧ c ≤ '9' then some (c.toNat - 48)
  else if 'a' ≤ c ∧ c ≤ 'f' then some (c.toNat - 87)
  else if 'A' ≤ c ∧ c ≤ 'F' then some (c.toNat - 55)
  else none

/-- JSON string escape characters. -/
def unescapeChar (c : Char) : Option Char :=
  if c == '"' || c == '\\' || c == '/' then some c
  else if c == 'n' then some '\n'
  else if c == 't' then some '\t'
  else if c == 'r' then some '\r'
  else if c == 'b' then some (Char.ofNat 8)
  else if c == 'f' then some (Char.ofNat 12)
  else none

/-- Parse the body of a JSON string literal (after the opening quote),
returning the decoded string and the input following the closing quote.
The fuel argument bounds the recursion by the input length. -/
def parseStrBody : Nat → List Char → List Char → Option (String × List Char)
  | 0, _, _ => none
  | _ + 1, [], _ => none
  | fuel + 1, c :: t, acc =>
    if c == '"' then some (String.mk acc.reverse, t)
    else if c == '\\' then
      match t with
      | [] => none
      | e :: t2 =>
        if e == 'u' then
          match t2 with
          | h1 :: h2 :: h3 :: h4 :: t3 =>
            match hexVal h1, hexVal h2, hexVal h3, hexVal h4 with
            | some a, some b, some c2, some d =>
              parseStrBody fuel t3
                (Char.ofNat (((a * 16 + b) * 16 + c2) * 16 + d) :: acc)
            | _, _, _, _ => none
          | _ => none
        else
          match unescapeChar e with
          | some c2 => parseStrBody fuel t2 (c2 :: acc)
          | none => none
    else if c.toNat < 32 then none
    else parseStrBody fuel t (c :: acc)

/-- Numeric value of a digit list. -/
def digitsToNat (ds : List Char) : Nat :=
  ds.foldl (fun n c => n * 10 + (c.toNat - 48)) 0

/-- Parse a JSON integer numeral (optional minus sign, digits, no leading
zeros).  A fraction or exponent part is outside the model and rejected. -/
def parseNum (cs : List Char) : Option (Json × List Char) :=
  let neg : Bool :=
    match cs with
    | c :: _ => c == '-'
    | [] => false
  let cs1 := if neg then cs.drop 1 else cs
  let ds := cs1.takeWhile Char.isDigit
  let rest := cs1.dropWhile Char.isDigit
  match ds with
  | [] => none
  | d :: ds2 =>
    if d == '0' && ¬ ds2.isEmpty then none
    else
      let v : Int := if neg then -(digitsToNat ds : Int) else (digitsToNat ds : Int)
      match rest with
      | c :: _ =>
        if c == '.' || c == 'e' || c == 'E' then none
        else some (Json.num v, rest)
      | [] => some (Json.num v, rest)

mutual

/-- Parse one JSON value (after skipping leading whitespace), returning the
value and the remaining input.  Fuel-bounded recursion. -/
def parseVal : Nat → List Char → Option (Json × List Char)
  | 0, _ => none
  | fuel + 1, cs =>
    match skipWs cs with
    | [] => none
    | c :: t =>
      if c == '"' then
        match parseStrBody (t.length + 1) t [] with
        | some (s, r) => some (Json.str s, r)
        | none => none
      else if c == lbrace then
        match skipWs t with
        | c2 :: t2 =>
          if c2 == rbrace then some (Json.obj [], t2)
          else parseMembers fuel (c2 :: t2) []
        | [] => none
      else if c == '[' then
        match skipWs t with
        | c2 :: t2 =>
          if c2 == ']' then some (Json.arr [], t2)
          else parseItems fuel (c2 :: t2) []
        | [] => none
      else if c == 't' then
        if "rue".data.isPrefixOf t then some (Json.bool true, t.drop 3) else none
      else if c == 'f' then
        if "alse".data.isPrefixOf t then some (Json.bool false, t.drop 4) else none
      else if c == 'n' then
        if "ull".data.isPrefixOf t then some (Json.null, t.drop 3) else none
      else parseNum (c :: t)

/-- Parse the members of a JSON object (input positioned at a key). -/
def parseMembers : Nat → List Char → List (String × Json) →
    Option (Json × List Char)
  | 0, _, _ => none
  | fuel + 1, cs, acc =>
    match cs with
    | c :: t =>
      if c == '"' then
        match parseStrBody (t.length + 1) t [] with
        | some (k, r1) =>
          match skipWs r1 with
          | c2 :: r2 =>
            if c2 == ':' then
              match parseVal fuel r2 with
              | some (v, r3) =>
                match skipWs r3 with
                | c3 :: r4 =>
                  if c3 == ',' then parseMembers fuel (skipWs r4) (insertField acc k v)
                  else if c3 == rbrace then some (Json.obj (insertField acc k v), r4)
                  else none
                | [] => none
              | none => none
            else none
          | [] => none
        | none => none
      else none
    | [] => none

/-- Parse the items of a JSON array (input positioned at a value). -/
def parseItems : Nat → List Char → List Json → Option (Json × List Char)
  | 0, _, _ => none
  | fuel + 1, cs, acc =>
    match parseVal fuel cs with
    | some (v, r1) =>
      match skipWs r1 with
      | c :: r2 =>
        if c == ',' then parseItems fuel (skipWs r2) (acc ++ [v])
        else if c == ']' then some (Json.arr (acc ++ [v]), r2)
        else none
      | [] => none
    | none => none

end

/-- Model of `JSON.parse(s)`: `some` on success, `none` when the JS call
would throw a SyntaxError. -/
def parseJson (s : String) : Option Json :=
  match parseVal (4 * s.data.length + 8) s.data with
  | some (v, rest) => if (skipWs rest).isEmpty then some v else none
  | none => none

/-- Escape one character for a JSON string literal, as `JSON.stringify`
does (two-character escapes for the common controls, `\u00XX` for the
rest of the C0 range, everything else literal). -/
def escapeChar (c : Char) : List Char :=
  if c == '"' then ['\\', '"']
  else if c == '\\' then ['\\', '\\']
  else if c == '\n' then ['\\', 'n']
  else if c == '\t' then ['\\', 't']
  else if c == '\r' then ['\\', 'r']
  else if c.toNat == 8 then ['\\', 'b']
  else if c.toNat == 12 then ['\\', 'f']
  else if c.toNat < 32 then
    ['\\', 'u', '0', '0',
     (if c.toNat / 16 = 0 then '0' else '1'),
     (let d := c.toNat % 16
      if d < 10 then Char.ofNat (48 + d) else Char.ofNat (87 + d))]
  else [c]

/-- A JSON string literal for `s`, as produced by `JSON.stringify`. -/
def quoteStr (s : String) : String :=
  String.mk ('"' :: (s.data.map escapeChar).flatten ++ ['"'])

mutual

/-- Compact `JSON.stringify(v)` (no indentation). -/
def stringify : Json → String
  | .null => "null"
  | .bool true => "true"
  | .bool false => "false"
  | .num n => toString n
  | .str s => quoteStr s
  | .arr es => String.mk [ '[' ] ++ stringifyItems es ++ String.mk [ ']' ]
  | .obj fs => String.mk [lbrace] ++ stringifyFields fs ++ String.mk [rbrace]

/-- Comma-separated compact serialisation of array items. -/
def stringifyItems : List Json → String
  | [] => ""
  | [x] => stringify x
  | x :: y :: t => stringify x ++ "," ++ stringifyItems (y :: t)

/-- Comma-separated compact serialisation of object fields. -/
def stringifyFields : List (String × Json) → String
  | [] => ""
  | [(k, v)] => quoteStr k ++ ":" ++ stringify v
  | (k, v) :: p :: t => quoteStr k ++ ":" ++ stringify v ++ "," ++ stringifyFields (p :: t)

end

/-- Spaces used by the pretty printer. -/
def spaces (n : Nat) : String := String.mk (List.replicate n ' ')

mutual

/-- Pretty `JSON.stringify(v, null, 2)` at current indentation depth `d`. -/
def stringifyAt : Nat → Json → String
  | _, .null => "null"
  | _, .bool true => "true"
  | _, .bool false => "false"
  | _, .num n => toString n
  | _, .str s => quoteStr s
  | _, .arr [] => String.mk [ '[', ']' ]
  | d, .arr (x :: t) =>
    String.mk [ '[', '\n' ] ++ stringifyItemsAt (d + 2) (x :: t) ++
      "\n" ++ spaces d ++ String.mk [ ']' ]
  | _, .obj [] => String.mk [lbrace, rbrace]
  | d, .obj (p :: t) =>
    String.mk [lbrace, '\n'] ++ stringifyFieldsAt (d + 2) (p :: t) ++
      "\n" ++ spaces d ++ String.mk [rbrace]

/-- Pretty-printed array items, one per line at indentation `d`. -/
def stringifyItemsAt : Nat → List Json → String
  | _, [] => ""
  | d, [x] => spaces d ++ stringifyAt d x
  | d, x :: y :: t => spaces d ++ stringifyAt d x ++ ",\n" ++ stringifyItemsAt d (y :: t)

/-- Pretty-printed object fields, one per line at indentation `d`. -/
def stringifyFieldsAt : Nat → List (String × Json) → String
  | _, [] => ""
  | d, [(k, v)] => spaces d ++ quoteStr k ++ ": " ++ stringifyAt d v
  | d, (k, v) :: p :: t =>
    spaces d ++ quoteStr k ++ ": " ++ stringifyAt d v ++ ",\n" ++
      stringifyFieldsAt d (p :: t)

end

/-- Model of `JSON.stringify(v, null, 2)`. -/
def stringify2 (v : Json) : String := stringifyAt 0 v

/-- The string carried by a Wordware chunk record: checks
`obj?.value?.type === 'chunk' && typeof obj.value.value === 'string'`
(src/api/generate.js line 244). -/
def chunkStr (j : Json) : Option String :=
  match jsGet j "value" with
  | some v =>
    match jsGet v "type" with
    | some (.str ty) =>
      if ty = "chunk" then
        match jsGet v "value" with
        | some (.str s) => some s
        | _ => none
      else none
    | _ => none
  | none => none

/-- Text extracted from one parsed stream line, mirroring the loop body of
`assembleFromStreamLines` (src/api/generate.js lines 242-250) and the
identical per-line step of the part_000 streaming loop (lines 70-82): a
`value: (type: "chunk", value: string)` record contributes its string,
otherwise a string `output` field, otherwise a string `text` field,
otherwise nothing. -/
def lineValue (j : Json) : String :=
  match chunkStr j with
  | some c => c
  | none =>
    match strField j "output" with
    | some o => o
    | none =>
      match strField j "text" with
      | some t => t
      | none => ""

/-- Contribution of one stream line: blank or non-JSON lines contribute
nothing, parsed lines contribute `lineValue`. -/
def lineContribution (l : String) : String :=
  if jsTrim l = "" then ""
  else
    match parseJson (jsTrim l) with
    | none => ""
    | some j => lineValue j

/-- Model of `assembleFromStreamLines` (src/api/generate.js lines 235-256):
split the raw body on newlines and concatenate per-line contributions. -/
def assembleFromStreamLines (raw : String) : String :=
  if raw = "" then ""
  else (splitOnNl raw).foldl (fun out l => out ++ lineContribution l) ""

/-- Model of `extractVisibleFromJsonBlob` (src/api/generate.js lines
259-270): if the whole body is JSON and a truthy object, return its string
`text` field, else its string `output` field, else - when a `hero`, `meta`
or `sections` key is truthy - the compact re-serialisation of the object;
otherwise the empty string. -/
def extractVisibleFromJsonBlob (raw : String) : String :=
  match parseJson raw with
  | none => ""
  | some j =>
    if jsTruthy j && isObjectType j then
      match strField j "text" with
      | some s => s
      | none =>
        match strField j "output" with
        | some s => s
        | none =>
          if jsTruthyOpt (jsGet j "hero") || jsTruthyOpt (jsGet j "meta") ||
              jsTruthyOpt (jsGet j "sections") then
            stringify j
          else ""
    else ""

/-- Model of `extractBetweenMarkers` (src/api/generate.js lines 273-279):
`indexOf` the start tag, `indexOf` the end tag from just after it, and
return the trimmed slice strictly between them. -/
def extractBetweenMarkers (s startTag endTag : String) : Option String :=
  match firstOcc startTag.data s.data 0 with
  | none => none
  | some a =>
    let afterStart := s.data.drop (a + startTag.data.length)
    match firstOcc endTag.data afterStart 0 with
    | none => none
    | some b => some (jsTrim (String.mk (afterStart.take b)))

/-- Strip a leading byte-order mark (`replace(/^﻿/, '')`). -/
def stripBOM (cs : List Char) : List Char :=
  match cs with
  | c :: t => if c.toNat == 0xFEFF then t else cs
  | [] => []

/-- Strip one leading code fence (`replace(/^```(?:json)?/i, '')`):
a three-backtick run optionally followed by `json`, case-insensitively. -/
def stripLeadingFence (cs : List Char) : List Char :=
  if (cs.take 7).map Char.toLower = "```json".data then cs.drop 7
  else if cs.take 3 = "```".data then cs.drop 3
  else cs

/-- Strip one trailing code fence (`replace(/```$/i, '')`). -/
def stripTrailingFence (cs : List Char) : List Char :=
  if 3 ≤ cs.length ∧ cs.drop (cs.length - 3) = "```".data then
    cs.take (cs.length - 3)
  else cs

/-- Model of `cleanupJsonSlice` (src/api/generate.js lines 282-288):
strip a BOM, a leading fence, a trailing fence, then trim. -/
def cleanupJsonSlice (s : String) : String :=
  String.mk (trimChars (stripTrailingFence (stripLeadingFence (stripBOM s.data))))

/-- The scan loop of `findLastBalancedJson` (src/api/generate.js lines
304-318): walk the characters tracking brace depth; a span opened at depth
zero is pushed when the depth returns to zero.  `start` models the JS
`start` variable (`none` is `-1`). -/
def scanBalanced : List Char → Nat → Nat → Option Nat → List (Nat × Nat) →
    List (Nat × Nat)
  | [], _, _, _, segs => segs
  | c :: t, i, depth, start, segs =>
    if c == lbrace then
      scanBalanced t (i + 1) (depth + 1) (if depth = 0 then some i else start) segs
    else if c == rbrace then
      if depth = 0 then scanBalanced t (i + 1) 0 start segs
      else if depth = 1 then
        match start with
        | some a => scanBalanced t (i + 1) 0 none (segs ++ [(a, i + 1)])
        | none => scanBalanced t (i + 1) 0 none segs
      else scanBalanced t (i + 1) (depth - 1) start segs
    else scanBalanced t (i + 1) depth start segs

/-- Model of `findLastBalancedJson` (src/api/generate.js lines 300-322):
return the trimmed slice of the last balanced top-level brace span, if any. -/
def findLastBalancedJson (s : String) : Option String :=
  match (scanBalanced s.data 0 0 none []).getLast? with
  | none => none
  | some (a, b) => some (jsTrim (String.mk ((s.data.drop a).take (b - a))))

/-- Representative text of a `JSON.parse` SyntaxError message
(`tryParseJson`, src/api/generate.js lines 291-297).  The real text is
V8-specific; no claim observes it. -/
def parseErrMsg (s : String) : String :=
  "Unexpected token in JSON: " ++ takeStr 60 s

/-- The start sentinel used by the final revision. -/
def finalStartTag : String := "__FINAL_JSON_START__"

/-- The end sentinel used by the final revision. -/
def finalEndTag : String := "__FINAL_JSON_END__"

/-- An HTTP response as produced by `res.status(n).json(body)`;
`body = none` models `res.status(n).end()`. -/
structure Resp where
  status : Nat
  body : Option Json

/-- The visible-text fallback chain of the final handler
(src/api/generate.js line 173):
`assembled || extractVisibleFromJsonBlob(raw) || raw || ''`. -/
def visibleOf (raw : String) : String :=
  let assembled := assembleFromStreamLines raw
  if assembled ≠ "" then assembled
  else
    let blob := extractVisibleFromJsonBlob raw
    if blob ≠ "" then blob else raw

/-- The marked-slice branch of the final handler (src/api/generate.js
lines 200-212): parse the cleaned slice; success returns 200 with the
value and the cleaned text, failure a 422 with a bounded preview. -/
def markedStep (cleaned : String) : Resp :=
  match parseJson cleaned with
  | some v => ⟨200, some (Json.obj [("json", v), ("text", Json.str cleaned)])⟩
  | none =>
    ⟨422, some (Json.obj
      [("error", Json.str "Unable to parse final JSON (marked)"),
       ("detail", Json.str (parseErrMsg cleaned)),
       ("preview", Json.str (takeStr 800 cleaned))])⟩

/-- Parsing of a guessed balanced span (src/api/generate.js lines
189-197): success returns 200 with the value and the guessed text,
failure the fallback-parse 422 with a bounded preview. -/
def fallbackParse (guessed : String) : Resp :=
  match parseJson guessed with
  | some v => ⟨200, some (Json.obj [("json", v), ("text", Json.str guessed)])⟩
  | none =>
    ⟨422, some (Json.obj
      [("error", Json.str "Unable to parse final JSON (fallback)"),
       ("detail", Json.str (parseErrMsg guessed)),
       ("preview", Json.str (takeStr 800 guessed))])⟩

/-- The fallback branch of the final handler (src/api/generate.js lines
178-198): look for the last balanced brace span; none gives the
"FINAL markers not found" 422, otherwise the span is parsed by
`fallbackParse`. -/
def fallbackStep (visible : String) : Resp :=
  match findLastBalancedJson visible with
  | none =>
    ⟨422, some (Json.obj
      [("error", Json.str "FINAL markers not found"),
       ("detail", Json.str
         "Expected __FINAL_JSON_START__ ... __FINAL_JSON_END__ in the final step output."),
       ("preview", Json.str (takeRightStr 800 visible))])⟩
  | some guessed => fallbackParse guessed

/-- The extraction stage of the final handler (src/api/generate.js lines
176-212): marker extraction first; a missing pair or an empty (falsy)
slice falls back to the balanced-brace scan. -/
def extractFinal (visible : String) : Resp :=
  match extractBetweenMarkers visible finalStartTag finalEndTag with
  | some s => if s = "" then fallbackStep visible else markedStep (cleanupJsonSlice s)
  | none => fallbackStep visible

/-- An inbound request: the HTTP method and the (framework-parsed) body.
`none` models an absent/undefined `req.body`. -/
structure Req where
  method : String
  body : Option Json

/-- The observable behaviour of the single upstream `fetch`:
a response with status, content type and body chunks, an abort of the
five-minute timeout, or a network-level rejection. -/
inductive Upstream where
  | resp (status : Nat) (ctype : String) (chunks : List String)
  | timeout
  | netfail (msg : String)

/-- A handler run: the response sent plus how many upstream calls were
issued (0 or 1; no revision retries). -/
structure HResult where
  resp : Resp
  upstreamCalls : Nat

/-- JS `r.ok`: status in the 2xx range. -/
def isOkStatus (status : Nat) : Bool := 200 ≤ status && status ≤ 299

/-- Body of `res.json({ error: msg })`. -/
def errObj (msg : String) : Json := Json.obj [("error", Json.str msg)]

/-- Body of `res.json({ error: 'Server error', detail: msg })`. -/
def serverErr (msg : String) : Json :=
  Json.obj [("error", Json.str "Server error"), ("detail", Json.str msg)]

/-- Destructuring `const { inputs } = req.body || {}` (src/api/generate.js
line 135, src/unnamed/part_000 line 14): an absent or falsy body gives no
`inputs`; a property read on a truthy primitive body is `undefined`. -/
def bodyInputs (b : Option Json) : Option Json :=
  match b with
  | none => none
  | some v => if jsTruthy v then jsGet v "inputs" else none

/-- Representative text of the TypeError thrown (in strict mode) by
assigning a property on a primitive `inputs` value. -/
def typeErrCreateMsg : String :=
  "TypeError: Cannot create property Persona_TravelHistory on primitive inputs"

/-- Representative text of the TypeError thrown by calling `.trim()` on a
truthy non-string `Persona_TravelHistory` value. -/
def typeErrTrimMsg : String :=
  "TypeError: inputs.Persona_TravelHistory.trim is not a function"

/-- Outcome of the validation-and-normalisation steps that precede the
upstream call in the sentinel revision (src/api/generate.js lines 135-141)
and in part_000 (lines 14-20). -/
inductive Preflight where
  | badInputs
  | thrown (msg : String)
  | ok (inputs : Json)

/-- The `Persona_TravelHistory` default step, reached with truthy `inputs`:
`if (!inputs.Persona_TravelHistory || !inputs.Persona_TravelHistory.trim())
inputs.Persona_TravelHistory = 'None'`.  On an object it fills the default;
on a truthy primitive the (strict-mode) property assignment throws; a
truthy non-string property makes `.trim()` throw.  Arrays accept the
assignment silently, and the added non-index property is invisible to the
later `JSON.stringify`, so they pass through unchanged. -/
def personaFix (v : Json) : Preflight :=
  match v with
  | .obj fs =>
    let p := getField fs "Persona_TravelHistory"
    if ¬ jsTruthyOpt p then
      .ok (Json.obj (insertField fs "Persona_TravelHistory" (Json.str "None")))
    else
      match p with
      | some (.str s) =>
        if jsTrim s = "" then
          .ok (Json.obj (insertField fs "Persona_TravelHistory" (Json.str "None")))
        else .ok v
      | _ => .thrown typeErrTrimMsg
  | .arr es => .ok (Json.arr es)
  | _ => .thrown typeErrCreateMsg

/-- Validation plus persona normalisation for the revisions that only
check `if (!inputs)`. -/
def preflight2 (b : Option Json) : Preflight :=
  match bodyInputs b with
  | none => .badInputs
  | some v => if jsTruthy v then personaFix v else .badInputs

/-- Model of the final (sentinel-marker) revision of the handler,
src/api/generate.js lines 123-217: CORS preflight, method check, `inputs`
check and persona default, one upstream call, upstream-error passthrough,
then normalisation (`visibleOf`) and final-JSON extraction
(`extractFinal`).  Every exception inside the `try` is routed to the
`catch`, which answers 500 with `Upstream timeout` for an AbortError and
`String(err)` otherwise.  (`handler2Post` is the `try` body, reached for
POST requests.) -/
def handler2Post (b : Option Json) (up : Upstream) : HResult :=
  match preflight2 b with
  | .badInputs => ⟨⟨400, some (errObj "Missing inputs")⟩, 0⟩
  | .thrown msg => ⟨⟨500, some (serverErr msg)⟩, 0⟩
  | .ok _ =>
    match up with
    | .timeout => ⟨⟨500, some (serverErr "Upstream timeout")⟩, 1⟩
    | .netfail msg => ⟨⟨500, some (serverErr msg)⟩, 1⟩
    | .resp status _ chunks =>
      if isOkStatus status then
        ⟨extractFinal (visibleOf (concatAll chunks)), 1⟩
      else
        ⟨⟨status, some (Json.obj
          [("error", Json.str "Wordware API error"),
           ("detail", Json.str (concatAll chunks))])⟩, 1⟩

/-- Method dispatch of the final revision (src/api/generate.js lines
128-132) in front of `handler2Post`. -/
def handler2 (req : Req) (up : Upstream) : HResult :=
  if req.method = "OPTIONS" then ⟨⟨200, none⟩, 0⟩
  else if req.method ≠ "POST" then ⟨⟨405, some (errObj "Method not allowed")⟩, 0⟩
  else handler2Post req.body up

/-- The body-normalisation step of the first revision (src/api/generate.js
lines 32-35): `typeof req.body === 'string' ? JSON.parse(req.body) :
(req.body || {})`.  `none` models the `JSON.parse` throw. -/
def bodyVal1 (b : Option Json) : Option Json :=
  match b with
  | some (.str s) => parseJson s
  | some v => if jsTruthy v then some v else some (Json.obj [])
  | none => some (Json.obj [])

/-- The upstream-error detail of the first revision (src/api/generate.js
lines 70-76): `parsed.error || parsed.message || parsed || text`, with the
raw text kept when the body is not JSON. -/
def detail1 (text : String) : Json :=
  match parseJson text with
  | none => Json.str text
  | some p =>
    jsOr (jsGet p "error") (jsOr (jsGet p "message")
      (if jsTruthy p then p else Json.str text))

/-- JS `inputs && typeof inputs === 'object'` for a possibly-`undefined`
value: the typeof test alone (see `isObjectType`). -/
def objTypeOpt : Option Json → Bool
  | some v => isObjectType v
  | none => false

/-- The payload unwrapping of the first revision (src/api/generate.js
lines 93-100): a truthy object-typed `output` field, else a truthy
object-typed `json` field, else the parsed value itself. -/
def pickPayload (raw : Json) : Json :=
  match jsGet raw "output" with
  | some v =>
    if jsTruthy v && isObjectType v then v
    else
      match jsGet raw "json" with
      | some w => if jsTruthy w && isObjectType w then w else raw
      | none => raw
  | none =>
    match jsGet raw "json" with
    | some w => if jsTruthy w && isObjectType w then w else raw
    | none => raw

/-- Model of the first revision of the handler (src/api/generate.js lines
8-118): validates method, API key and a typeof-object `inputs`, calls
upstream once, passes a non-success upstream status through with
`detail1`, and unwraps a JSON response body into `{ json, text, raw }`.
(`handler1Post` is the `try` body, reached for POST requests with the
API key configured.) -/
def handler1Post (b : Option Json) (up : Upstream) : HResult :=
  match bodyVal1 b with
    | none => ⟨⟨500, some (serverErr "Unexpected token in JSON: req.body")⟩, 0⟩
    | some bv =>
      let inputs := jsGet bv "inputs"
      if ¬ (jsTruthyOpt inputs && objTypeOpt inputs) then
        ⟨⟨400, some (errObj "Missing or invalid inputs")⟩, 0⟩
      else
        match up with
        | .timeout => ⟨⟨500, some (serverErr "Upstream failure")⟩, 1⟩
        | .netfail msg => ⟨⟨500, some (serverErr msg)⟩, 1⟩
        | .resp status ctype chunks =>
          let text := concatAll chunks
          if ¬ isOkStatus status then
            ⟨⟨status, some (Json.obj
              [("error", Json.str "Wordware API error"),
               ("detail", detail1 text)])⟩, 1⟩
          else if strIncludes ctype "application/json" then
            match parseJson text with
            | none =>
              ⟨⟨200, some (Json.obj
                [("json", Json.null), ("text", Json.str text),
                 ("raw", Json.null)])⟩, 1⟩
            | some raw =>
              let payload := pickPayload raw
              ⟨⟨200, some (Json.obj
                [("json", payload), ("text", Json.str (stringify2 payload)),
                 ("raw", raw)])⟩, 1⟩
          else
            ⟨⟨200, some (Json.obj
              [("json", Json.null), ("text", Json.str text),
               ("raw", Json.null)])⟩, 1⟩

/-- Method and API-key dispatch of the first revision (src/api/generate.js
lines 14-29) in front of `handler1Post`. -/
def handler1 (req : Req) (hasKey : Bool) (up : Upstream) : HResult :=
  if req.method = "OPTIONS" then ⟨⟨200, none⟩, 0⟩
  else if req.method ≠ "POST" then ⟨⟨405, some (errObj "Method not allowed")⟩, 0⟩
  else if ¬ hasKey then ⟨⟨500, some (errObj "WORDWARE_API_KEY not configured")⟩, 0⟩
  else handler1Post req.body up

/-- One chunk step of the part_000 streaming loop (src/unnamed/part_000
lines 62-84): append the chunk to the buffer, split on newlines, keep the
trailing fragment as the new buffer and fold the complete lines through
the shared per-line contribution. -/
def streamStep (st : String × String) (chunk : String) : String × String :=
  let buf := st.2 ++ chunk
  let lines := splitOnNl buf
  let newBuf := (lines.getLast?).getD ""
  (lines.dropLast.foldl (fun o l => o ++ lineContribution l) st.1, newBuf)

/-- The whole part_000 streaming loop: fold the chunks starting from an
empty output and buffer. -/
def streamLoop (chunks : List String) : String × String :=
  chunks.foldl streamStep ("", "")

/-- Model of the part_000 revision of the handler (src/unnamed/part_000
lines 3-92): `inputs` truthiness check with the persona default, one
upstream call, upstream-error passthrough with the raw error text, a JSON
content type answered from `output || text || value || stringify`, and a
streamed body answered from the loop output, the trailing buffer, or the
placeholder `(no output)`.  (`handlerP0Post` is the `try` body, reached
for POST requests.) -/
def handlerP0Post (b : Option Json) (up : Upstream) : HResult :=
  match preflight2 b with
  | .badInputs => ⟨⟨400, some (errObj "Missing inputs")⟩, 0⟩
  | .thrown msg => ⟨⟨500, some (serverErr msg)⟩, 0⟩
  | .ok _ =>
    match up with
    | .timeout => ⟨⟨500, some (serverErr "Upstream failure")⟩, 1⟩
    | .netfail msg => ⟨⟨500, some (serverErr msg)⟩, 1⟩
    | .resp status ctype chunks =>
      if ¬ isOkStatus status then
        ⟨⟨status, some (Json.obj
          [("error", Json.str "Wordware API error"),
           ("detail", Json.str (concatAll chunks))])⟩, 1⟩
      else if strIncludes ctype "application/json" then
        match parseJson (concatAll chunks) with
        | none => ⟨⟨500, some (serverErr (parseErrMsg (concatAll chunks)))⟩, 1⟩
        | some data =>
          ⟨⟨200, some (Json.obj [("text",
            jsOr (jsGet data "output") (jsOr (jsGet data "text")
              (jsOr (jsGet data "value") (Json.str (stringify2 data)))))])⟩, 1⟩
      else
        ⟨⟨200, some (Json.obj [("text", Json.str
          (if (streamLoop chunks).1 ≠ "" then (streamLoop chunks).1
           else if (streamLoop chunks).2 ≠ "" then (streamLoop chunks).2
           else "(no output)"))])⟩, 1⟩

/-- Method dispatch of the part_000 revision (src/unnamed/part_000 lines
7-11) in front of `handlerP0Post`. -/
def handlerP0 (req : Req) (up : Upstream) : HResult :=
  if req.method = "OPTIONS" then ⟨⟨200, none⟩, 0⟩
  else if req.method ≠ "POST" then ⟨⟨405, some (errObj "Method not allowed")⟩, 0⟩
  else handlerP0Post req.body up

/-- Concrete NDJSON body for the C1 witness: two chunk lines with a
non-JSON noise line between them. -/
def c1input : String :=
  "\x7b\"value\":\x7b\"type\":\"chunk\",\"value\":\"Hello \"\x7d\x7d\nnoise\n\x7b\"value\":\x7b\"type\":\"chunk\",\"value\":\"world\"\x7d\x7d"

/-- The byte-order-mark character. -/
def bomChar : Char := Char.ofNat 0xFEFF

/-- A string consisting of a single byte-order mark. -/
def bomStr : String := String.mk [bomChar]

/-- Visible text with a whitespace-padded marked slice (C2 counterexample
input). -/
def c2slice : String := "__FINAL_JSON_START__ \x7b\x7d __FINAL_JSON_END__"

/-- Visible text with both sentinels present but only whitespace between
them, and a balanced object elsewhere (C2 counterexample input). -/
def c2both : String := "\x7b\"ok\":1\x7d __FINAL_JSON_START__ __FINAL_JSON_END__"

/-- Concrete marked visible text for the C2 witness. -/
def c2wit : String := "x __FINAL_JSON_START__\x7b\"a\":1\x7d__FINAL_JSON_END__"

/-- The spec's balanced-brace example text. -/
def c3input : String := "intro \x7b\"x\":1\x7d noise \x7b\"y\":2\x7d"

/-- Single-JSON body whose only textual field is the empty string. -/
def c4empty : String := "\x7b\"text\":\"\"\x7d"

/-- Single-line single-JSON body carrying both textual fields. -/
def c4both : String := "\x7b\"output\":\"A\",\"text\":\"B\"\x7d"

/-- A multi-line pretty-printed single-JSON body for the C4 witness. -/
def c4wit : String := "\x7b\n  \"text\": \"B\"\n\x7d"

/-- Single-JSON body with a `hero` key bound to a falsy value and spacing
that distinguishes the raw text from its re-serialisation. -/
def c10raw : String := "\x7b \"hero\": 0 \x7d"

/-- A truthy-`hero` object body for the C10 witness. -/
def c10wit : String := "\x7b \"hero\": 1 \x7d"

/-- A structured response: the body is a JSON object, and it carries a
string `error` field whenever the status is not a success status. -/
def okOrError (r : Resp) : Prop :=
  ∃ fs, r.body = some (Json.obj fs) ∧
    (isOkStatus r.status = false → ∃ m, getField fs "error" = some (Json.str m))

/-- POST body with a truthy string `inputs` (C6 counterexample input). -/
def c6req : Req := ⟨"POST", some (Json.obj [("inputs", Json.str "abc")])⟩

/-- Primitive (non-object, non-array) truthy-capable JSON values. -/
def isPrimValue : Json → Bool
  | .str _ => true
  | .num _ => true
  | .bool _ => true
  | _ => false

/-- Strings are equal when their character lists are. -/
theorem strOfData (a b : String) (h : a.data = b.data) : a = b := by
  cases a; cases b; exact congrArg String.mk h

/-- Character list of a concatenation. -/
theorem dataAppend (a b : String) : (a ++ b).data = a.data ++ b.data := by
  cases a; cases b; rfl

/-- String concatenation is associative. -/
theorem strAppendAssoc (a b c : String) : a ++ b ++ c = a ++ (b ++ c) := by
  apply strOfData; simp [dataAppend]

/-- The empty string is a right identity. -/
theorem strAppendEmpty (a : String) : a ++ "" = a := by
  apply strOfData
  have h : ("" : String).data = [] := rfl
  simp [dataAppend, h]

/-- The empty string is a left identity. -/
theorem strEmptyAppend (a : String) : "" ++ a = a := by
  apply strOfData
  have h : ("" : String).data = [] := rfl
  simp [dataAppend, h]

/-- Folding string concatenation over a list equals the concatenation of
the images, prefixed with the accumulator. -/
theorem foldlAppendConcatAll (f : String → String) :
    ∀ (ls : List String) (acc : String),
      ls.foldl (fun out l => out ++ f l) acc = acc ++ concatAll (ls.map f)
  | [], acc => by simp [concatAll, strAppendEmpty]
  | l :: t, acc => by
    simp only [List.foldl_cons, List.map_cons, concatAll]
    rw [foldlAppendConcatAll f t (acc ++ f l), strAppendAssoc]

/-- The stream assembler is the concatenation of the per-line
contributions, in line order. -/
theorem assembleEqConcat (raw : String) :
    assembleFromStreamLines raw = concatAll ((splitOnNl raw).map lineContribution) := by
  unfold assembleFromStreamLines
  by_cases h : raw = ""
  · subst h; rfl
  · rw [if_neg h, foldlAppendConcatAll lineContribution (splitOnNl raw) "",
      strEmptyAppend]

/-- The empty string does not parse as JSON. -/
theorem parseJsonEmpty : parseJson "" = none := rfl

/-- A line all of whose successful parses are chunk records contributes
exactly its chunk string (or nothing). -/
theorem lineContributionChunk (l : String)
    (h : ((parseJson (jsTrim l)).all fun j => (chunkStr j).isSome) = true) :
    lineContribution l = ((parseJson (jsTrim l)).bind chunkStr).getD "" := by
  unfold lineContribution
  by_cases hs : jsTrim l = ""
  · rw [hs, if_pos rfl, parseJsonEmpty]; rfl
  · rw [if_neg hs]
    cases hp : parseJson (jsTrim l) with
    | none => rfl
    | some j =>
      rw [hp] at h
      have hj : (chunkStr j).isSome = true := by simpa [Option.all] using h
      obtain ⟨c, hc⟩ := Option.isSome_iff_exists.mp hj
      show lineValue j = (chunkStr j).getD ""
      unfold lineValue
      rw [hc]
      rfl

/-- C1: for every upstream body treated as newline-separated lines in
which each line that parses as JSON is a chunk record carrying a string,
the stream-assembly output of the Response Normalizer
(`assembleFromStreamLines`) is the concatenation of those chunk strings in
line order; blank lines and lines that fail to parse contribute nothing
and do not abort the processing of later lines. -/
theorem c1_stream_assembly_concat (raw : String)
    (h : ∀ l ∈ splitOnNl raw,
      ((parseJson (jsTrim l)).all fun j => (chunkStr j).isSome) = true) :
    assembleFromStreamLines raw =
      concatAll ((splitOnNl raw).map
        fun l => ((parseJson (jsTrim l)).bind chunkStr).getD "") := by
  rw [assembleEqConcat raw]
  congr 1
  exact List.map_congr_left fun l hl => lineContributionChunk l (h l hl)

/-- Witness for C1 at a concrete two-chunk body. -/
theorem c1_stream_assembly_concat_witness :
    assembleFromStreamLines c1input = "Hello world" :=
  (c1_stream_assembly_concat c1input (by decide)).trans (by decide)

/-- Character-level cleanup of a BOM-and-fence-wrapped slice: the BOM, the
`json`-tagged leading fence and the trailing fence are stripped and the
payload is trimmed. -/
theorem cleanupCharsFenced (cs : List Char) :
    trimChars (stripTrailingFence (stripLeadingFence (stripBOM
      (bomChar :: ("```json".data ++ (cs ++ "```".data)))))) = trimChars cs := by
  have h1 : stripBOM (bomChar :: ("```json".data ++ (cs ++ "```".data))) =
      "```json".data ++ (cs ++ "```".data) := by
    simp [stripBOM, bomChar]
  rw [h1]
  have ht : ("```json".data ++ (cs ++ "```".data)).take 7 = "```json".data :=
    List.take_left' (by rfl)
  have hd : ("```json".data ++ (cs ++ "```".data)).drop 7 = cs ++ "```".data :=
    List.drop_left' (by rfl)
  have h2 : stripLeadingFence ("```json".data ++ (cs ++ "```".data)) =
      cs ++ "```".data := by
    unfold stripLeadingFence
    rw [ht, hd, if_pos (by decide)]
  rw [h2]
  have hlen : (cs ++ "```".data).length = cs.length + 3 := by simp
  have heq : cs.length + 3 - 3 = cs.length := by omega
  have hd3 : (cs ++ "```".data).drop (cs.length + 3 - 3) = "```".data := by
    rw [heq]; exact List.drop_left cs _
  have ht3 : (cs ++ "```".data).take (cs.length + 3 - 3) = cs := by
    rw [heq]; exact List.take_left cs _
  have h3 : stripTrailingFence (cs ++ "```".data) = cs := by
    unfold stripTrailingFence
    rw [hlen, hd3, ht3, if_pos ⟨by omega, rfl⟩]
  rw [h3]

/-- C8: cleanup strips a byte-order mark, one leading ``` or ```json
fence, one trailing ``` fence and surrounding whitespace; in particular
the slice consisting of a json-tagged fenced object cleans to the object
text, which parses to the singleton object. -/
theorem c8_cleanup_fences :
    cleanupJsonSlice "```json\n\x7b\"a\":1\x7d\n```" = "\x7b\"a\":1\x7d" ∧
    parseJson "\x7b\"a\":1\x7d" = some (Json.obj [("a", Json.num 1)]) ∧
    ∀ s : String, cleanupJsonSlice (bomStr ++ "```json" ++ s ++ "```") = jsTrim s := by
  refine ⟨rfl, rfl, fun s => ?_⟩
  unfold cleanupJsonSlice jsTrim
  have hdata : (bomStr ++ "```json" ++ s ++ "```").data =
      bomChar :: ("```json".data ++ (s.data ++ "```".data)) := by
    simp [dataAppend, bomStr]
  rw [hdata, cleanupCharsFenced s.data]

/-- Witness for C8 at a concrete whitespace-padded slice. -/
theorem c8_cleanup_fences_witness :
    cleanupJsonSlice (bomStr ++ "```json" ++ " \x7b\x7d " ++ "```") = "\x7b\x7d" :=
  (c8_cleanup_fences.2.2 " \x7b\x7d ").trans (by decide)

/-- C2 counterexample: the slice handed on is the TRIMMED text between the
sentinels, not the exact substring strictly between them (" \x7b\x7d "
would be the exact substring here); and when the text between the
sentinels trims to the empty string, the handler does use the
balanced-brace fallback even though both sentinels are present. -/
theorem c2_slice_trimmed_counterexample :
    extractBetweenMarkers c2slice finalStartTag finalEndTag = some "\x7b\x7d" ∧
    (" \x7b\x7d " : String) ≠ "\x7b\x7d" ∧
    extractBetweenMarkers c2both finalStartTag finalEndTag = some "" ∧
    extractFinal c2both =
      ⟨200, some (Json.obj [("json", Json.obj [("ok", Json.num 1)]),
        ("text", Json.str "\x7b\"ok\":1\x7d")])⟩ :=
  ⟨rfl, by decide, rfl, rfl⟩

/-- C2 (amended): when the visible text contains the start sentinel and,
after it, the end sentinel, the candidate slice is the TRIMMED substring
strictly between the first start-sentinel occurrence and the first
end-sentinel occurrence after it; whenever that trimmed slice is
non-empty, marker extraction takes priority and the balanced-brace
fallback is not used. -/
theorem c2_marker_extraction_amended (s : String) (a b : Nat)
    (ha : firstOcc finalStartTag.data s.data 0 = some a)
    (hb : firstOcc finalEndTag.data
      (s.data.drop (a + finalStartTag.data.length)) 0 = some b) :
    extractBetweenMarkers s finalStartTag finalEndTag =
      some (jsTrim (String.mk
        ((s.data.drop (a + finalStartTag.data.length)).take b))) ∧
    (jsTrim (String.mk ((s.data.drop (a + finalStartTag.data.length)).take b)) ≠ "" →
      extractFinal s =
        markedStep (cleanupJsonSlice (jsTrim (String.mk
          ((s.data.drop (a + finalStartTag.data.length)).take b))))) := by
  have h1 : extractBetweenMarkers s finalStartTag finalEndTag =
      some (jsTrim (String.mk
        ((s.data.drop (a + finalStartTag.data.length)).take b))) := by
    unfold extractBetweenMarkers
    rw [ha]
    dsimp only
    rw [hb]
  refine ⟨h1, fun hne => ?_⟩
  unfold extractFinal
  rw [h1]
  dsimp only
  rw [if_neg hne]

/-- Witness for C2 (amended) at a concrete marked text. -/
theorem c2_marker_extraction_amended_witness :
    extractBetweenMarkers c2wit finalStartTag finalEndTag =
      some (jsTrim (String.mk
        ((c2wit.data.drop (2 + finalStartTag.data.length)).take 7))) ∧
    extractFinal c2wit =
      markedStep (cleanupJsonSlice (jsTrim (String.mk
        ((c2wit.data.drop (2 + finalStartTag.data.length)).take 7)))) := by
  have h := c2_marker_extraction_amended c2wit 2 7 (by decide) (by decide)
  exact ⟨h.1, h.2 (by decide)⟩

/-- C3: without sentinels, the extractor selects the LAST top-level
balanced brace span (the example yields the object y:2, not x:1), and
when the scan finds no balanced span the handler answers the structured
"FINAL markers not found" 422. -/
theorem c3_last_balanced_extraction :
    extractFinal c3input =
      ⟨200, some (Json.obj [("json", Json.obj [("y", Json.num 2)]),
        ("text", Json.str "\x7b\"y\":2\x7d")])⟩ ∧
    findLastBalancedJson c3input = some "\x7b\"y\":2\x7d" ∧
    findLastBalancedJson c3input ≠ some "\x7b\"x\":1\x7d" ∧
    ∀ s : String,
      (extractBetweenMarkers s finalStartTag finalEndTag).getD "" = "" →
      scanBalanced s.data 0 0 none [] = [] →
      extractFinal s =
        ⟨422, some (Json.obj
          [("error", Json.str "FINAL markers not found"),
           ("detail", Json.str
             "Expected __FINAL_JSON_START__ ... __FINAL_JSON_END__ in the final step output."),
           ("preview", Json.str (takeRightStr 800 s))])⟩ := by
  refine ⟨rfl, rfl, by decide, fun s h1 h2 => ?_⟩
  have hfb : fallbackStep s =
      ⟨422, some (Json.obj
        [("error", Json.str "FINAL markers not found"),
         ("detail", Json.str
           "Expected __FINAL_JSON_START__ ... __FINAL_JSON_END__ in the final step output."),
         ("preview", Json.str (takeRightStr 800 s))])⟩ := by
    unfold fallbackStep findLastBalancedJson
    rw [h2]
    rfl
  unfold extractFinal
  cases hm : extractBetweenMarkers s finalStartTag finalEndTag with
  | none => exact hfb
  | some t =>
    have ht : t = "" := by rw [hm] at h1; simpa using h1
    rw [ht]
    exact hfb

/-- Witness for C3 at a brace-free visible text. -/
theorem c3_last_balanced_extraction_witness :
    extractFinal "plain text, no braces" =
      ⟨422, some (Json.obj
        [("error", Json.str "FINAL markers not found"),
         ("detail", Json.str
           "Expected __FINAL_JSON_START__ ... __FINAL_JSON_END__ in the final step output."),
         ("preview", Json.str (takeRightStr 800 "plain text, no braces"))])⟩ :=
  c3_last_balanced_extraction.2.2.2 "plain text, no braces" (by decide) (by decide)

/-- C4 counterexample: a single-JSON body whose top-level `text` string
field is empty yields the whole raw body as visible text, not the field
value; and a single-line body with both fields yields the `output` value
(via stream assembly), though the blob extractor prefers `text`. -/
theorem c4_empty_field_counterexample :
    parseJson c4empty = some (Json.obj [("text", Json.str "")]) ∧
    visibleOf c4empty = c4empty ∧
    c4empty ≠ "" ∧
    parseJson c4both =
      some (Json.obj [("output", Json.str "A"), ("text", Json.str "B")]) ∧
    visibleOf c4both = "A" ∧
    ("A" : String) ≠ "B" :=
  ⟨rfl, rfl, by decide, rfl, rfl, by decide⟩

/-- The blob extractor returns a string `text` field of a parsed object
body. -/
theorem blobTextField (raw : String) (fs : List (String × Json)) (s : String)
    (hp : parseJson raw = some (Json.obj fs))
    (ht : getField fs "text" = some (Json.str s)) :
    extractVisibleFromJsonBlob raw = s := by
  unfold extractVisibleFromJsonBlob
  rw [hp]
  have hs : strField (Json.obj fs) "text" = some s := by
    simp only [strField, jsGet, ht]
  have hc : (jsTruthy (Json.obj fs) && isObjectType (Json.obj fs)) = true := rfl
  dsimp only
  rw [if_pos hc, hs]

/-- The blob extractor returns a string `output` field of a parsed object
body when `text` is not a string field. -/
theorem blobOutputField (raw : String) (fs : List (String × Json)) (s : String)
    (hp : parseJson raw = some (Json.obj fs))
    (htn : strField (Json.obj fs) "text" = none)
    (ho : getField fs "output" = some (Json.str s)) :
    extractVisibleFromJsonBlob raw = s := by
  unfold extractVisibleFromJsonBlob
  rw [hp]
  have hs : strField (Json.obj fs) "output" = some s := by
    simp only [strField, jsGet, ho]
  have hc : (jsTruthy (Json.obj fs) && isObjectType (Json.obj fs)) = true := rfl
  dsimp only
  rw [if_pos hc, htn]
  dsimp only
  rw [hs]

/-- C4 (amended): for a well-formed single-JSON body with a non-empty
top-level `text` string field (or a non-empty `output` string field when
`text` is not a string field), the Normalizer's visible text equals that
field's value, provided stream-line assembly yields nothing (as with
multi-line bodies; a single-line body is already captured by stream
assembly, which prefers `output` over `text`); an empty field value
instead falls through to the raw body. -/
theorem c4_visible_field_amended :
    (∀ (raw : String) (fs : List (String × Json)) (s : String),
      parseJson raw = some (Json.obj fs) →
      getField fs "text" = some (Json.str s) →
      s ≠ "" →
      assembleFromStreamLines raw = "" →
      visibleOf raw = s) ∧
    (∀ (raw : String) (fs : List (String × Json)) (s : String),
      parseJson raw = some (Json.obj fs) →
      strField (Json.obj fs) "text" = none →
      getField fs "output" = some (Json.str s) →
      s ≠ "" →
      assembleFromStreamLines raw = "" →
      visibleOf raw = s) := by
  constructor
  · intro raw fs s hp ht hs ha
    have hb := blobTextField raw fs s hp ht
    unfold visibleOf
    rw [ha, if_neg (by simp), hb, if_pos hs]
  · intro raw fs s hp htn ho hs ha
    have hb := blobOutputField raw fs s hp htn ho
    unfold visibleOf
    rw [ha, if_neg (by simp), hb, if_pos hs]

/-- Witness for C4 (amended) at a multi-line body. -/
theorem c4_visible_field_amended_witness : visibleOf c4wit = "B" :=
  c4_visible_field_amended.1 c4wit [("text", Json.str "B")] "B" rfl rfl
    (by decide) rfl

/-- C9: the visible text is the fallback chain - assembled stream text if
non-empty, else the blob's textual field if non-empty, else the raw body
verbatim - hence non-empty whenever the raw body is; in particular a
single-JSON body whose `text` field is the empty string yields the whole
raw body. -/
theorem c9_visible_fallback_chain :
    (∀ raw, assembleFromStreamLines raw ≠ "" →
      visibleOf raw = assembleFromStreamLines raw) ∧
    (∀ raw, assembleFromStreamLines raw = "" →
      extractVisibleFromJsonBlob raw ≠ "" →
      visibleOf raw = extractVisibleFromJsonBlob raw) ∧
    (∀ raw, assembleFromStreamLines raw = "" →
      extractVisibleFromJsonBlob raw = "" →
      visibleOf raw = raw) ∧
    (∀ raw, raw ≠ "" → visibleOf raw ≠ "") ∧
    visibleOf "\x7b\"note\":\"\"\x7d" = "\x7b\"note\":\"\"\x7d" := by
  refine ⟨fun raw ha => ?_, fun raw ha hb => ?_, fun raw ha hb => ?_,
    fun raw hr => ?_, rfl⟩
  · unfold visibleOf
    rw [if_pos ha]
  · unfold visibleOf
    rw [ha, if_neg (by simp), if_pos hb]
  · unfold visibleOf
    rw [ha, if_neg (by simp), hb, if_neg (by simp)]
  · unfold visibleOf
    by_cases h1 : assembleFromStreamLines raw ≠ ""
    · rw [if_pos h1]; exact h1
    · rw [if_neg h1]
      by_cases h2 : extractVisibleFromJsonBlob raw ≠ ""
      · rw [if_pos h2]; exact h2
      · rw [if_neg h2]; exact hr

/-- Witness for C9 at a non-empty raw body. -/
theorem c9_visible_fallback_chain_witness : visibleOf "x" ≠ "" :=
  c9_visible_fallback_chain.2.2.2.1 "x" (by decide)

/-- C10 counterexample: a body that merely HAS a `hero` key (bound to the
falsy value 0) is not re-serialised - the visible text is the raw body,
which differs from the `JSON.stringify` form the claim predicts. -/
theorem c10_falsy_key_counterexample :
    parseJson c10raw = some (Json.obj [("hero", Json.num 0)]) ∧
    visibleOf c10raw = c10raw ∧
    c10raw ≠ stringify (Json.obj [("hero", Json.num 0)]) :=
  ⟨rfl, rfl, by decide⟩

/-- A compact serialisation of an object is never the empty string. -/
theorem stringifyObjNeEmpty (fs : List (String × Json)) :
    stringify (Json.obj fs) ≠ "" := by
  intro h
  have h3 := congrArg String.data h
  rw [show stringify (Json.obj fs) =
      String.mk [lbrace] ++ stringifyFields fs ++ String.mk [rbrace] from rfl,
    dataAppend, dataAppend] at h3
  have h2 : lbrace :: ((stringifyFields fs).data ++ [rbrace]) = ([] : List Char) := h3
  exact List.cons_ne_nil _ _ h2

/-- C10 (amended): a single-JSON object body with no string `text` or
`output` field and a TRUTHY `hero`, `meta` or `sections` key (and for
which stream assembly yields nothing) is answered with the
`JSON.stringify` re-serialisation of the whole object. -/
theorem c10_stringify_amended (raw : String) (fs : List (String × Json))
    (hp : parseJson raw = some (Json.obj fs))
    (htn : strField (Json.obj fs) "text" = none)
    (hon : strField (Json.obj fs) "output" = none)
    (hkey : (jsTruthyOpt (jsGet (Json.obj fs) "hero") ||
      jsTruthyOpt (jsGet (Json.obj fs) "meta") ||
      jsTruthyOpt (jsGet (Json.obj fs) "sections")) = true)
    (ha : assembleFromStreamLines raw = "") :
    visibleOf raw = stringify (Json.obj fs) := by
  have hb : extractVisibleFromJsonBlob raw = stringify (Json.obj fs) := by
    unfold extractVisibleFromJsonBlob
    rw [hp]
    have hc : (jsTruthy (Json.obj fs) && isObjectType (Json.obj fs)) = true := rfl
    dsimp only
    rw [if_pos hc, htn]
    dsimp only
    rw [hon]
    dsimp only
    rw [if_pos hkey]
  unfold visibleOf
  rw [ha, if_neg (by simp), hb, if_pos (stringifyObjNeEmpty fs)]

/-- Witness for C10 (amended) at a truthy-`hero` body. -/
theorem c10_stringify_amended_witness :
    visibleOf c10wit = stringify (Json.obj [("hero", Json.num 1)]) :=
  c10_stringify_amended c10wit [("hero", Json.num 1)] rfl rfl rfl (by decide) rfl

/-- The marked-slice branch always answers with a structured body. -/
theorem okOrErrorMarkedStep (cleaned : String) : okOrError (markedStep cleaned) := by
  unfold markedStep
  cases parseJson cleaned with
  | some v =>
    exact ⟨[("json", v), ("text", Json.str cleaned)], rfl, fun h => nomatch h⟩
  | none =>
    exact ⟨[("error", Json.str "Unable to parse final JSON (marked)"),
      ("detail", Json.str (parseErrMsg cleaned)),
      ("preview", Json.str (takeStr 800 cleaned))], rfl,
      fun _ => ⟨"Unable to parse final JSON (marked)", rfl⟩⟩

/-- The fallback-parse step always answers with a structured body. -/
theorem okOrErrorFallbackParse (guessed : String) :
    okOrError (fallbackParse guessed) := by
  unfold fallbackParse
  cases parseJson guessed with
  | some v =>
    exact ⟨[("json", v), ("text", Json.str guessed)], rfl, fun h => nomatch h⟩
  | none =>
    exact ⟨[("error", Json.str "Unable to parse final JSON (fallback)"),
      ("detail", Json.str (parseErrMsg guessed)),
      ("preview", Json.str (takeStr 800 guessed))], rfl,
      fun _ => ⟨"Unable to parse final JSON (fallback)", rfl⟩⟩

/-- The fallback branch always answers with a structured body. -/
theorem okOrErrorFallbackStep (v : String) : okOrError (fallbackStep v) := by
  unfold fallbackStep
  cases findLastBalancedJson v with
  | none =>
    exact ⟨[("error", Json.str "FINAL markers not found"),
      ("detail", Json.str
        "Expected __FINAL_JSON_START__ ... __FINAL_JSON_END__ in the final step output."),
      ("preview", Json.str (takeRightStr 800 v))], rfl,
      fun _ => ⟨"FINAL markers not found", rfl⟩⟩
  | some g => exact okOrErrorFallbackParse g

/-- The extraction stage always answers with a structured body. -/
theorem okOrErrorExtractFinal (v : String) : okOrError (extractFinal v) := by
  unfold extractFinal
  cases extractBetweenMarkers v finalStartTag finalEndTag with
  | none => exact okOrErrorFallbackStep v
  | some s =>
    show okOrError (if s = "" then fallbackStep v
      else markedStep (cleanupJsonSlice s))
    by_cases hs : s = ""
    · rw [if_pos hs]
      exact okOrErrorFallbackStep v
    · rw [if_neg hs]
      exact okOrErrorMarkedStep (cleanupJsonSlice s)

/-- Every POST run of the sentinel-revision handler answers with a
structured body. -/
theorem okOrErrorHandler2Post (b : Option Json) (up : Upstream) :
    okOrError (handler2Post b up).resp := by
  unfold handler2Post
  cases preflight2 b with
  | badInputs =>
    exact ⟨[("error", Json.str "Missing inputs")], rfl,
      fun _ => ⟨"Missing inputs", rfl⟩⟩
  | thrown m =>
    exact ⟨[("error", Json.str "Server error"), ("detail", Json.str m)], rfl,
      fun _ => ⟨"Server error", rfl⟩⟩
  | ok v =>
    cases up with
    | timeout =>
      exact ⟨[("error", Json.str "Server error"),
        ("detail", Json.str "Upstream timeout")], rfl,
        fun _ => ⟨"Server error", rfl⟩⟩
    | netfail m =>
      exact ⟨[("error", Json.str "Server error"), ("detail", Json.str m)], rfl,
        fun _ => ⟨"Server error", rfl⟩⟩
    | resp status ct chunks =>
      show okOrError ((if isOkStatus status then
          (⟨extractFinal (visibleOf (concatAll chunks)), 1⟩ : HResult)
        else ⟨⟨status, some (Json.obj
          [("error", Json.str "Wordware API error"),
           ("detail", Json.str (concatAll chunks))])⟩, 1⟩).resp)
      by_cases hok : isOkStatus status = true
      · rw [if_pos hok]
        exact okOrErrorExtractFinal _
      · rw [if_neg hok]
        exact ⟨[("error", Json.str "Wordware API error"),
          ("detail", Json.str (concatAll chunks))], rfl,
          fun _ => ⟨"Wordware API error", rfl⟩⟩

/-- Every POST run of the part_000 handler answers with a structured
body. -/
theorem okOrErrorHandlerP0Post (b : Option Json) (up : Upstream) :
    okOrError (handlerP0Post b up).resp := by
  unfold handlerP0Post
  cases preflight2 b with
  | badInputs =>
    exact ⟨[("error", Json.str "Missing inputs")], rfl,
      fun _ => ⟨"Missing inputs", rfl⟩⟩
  | thrown m =>
    exact ⟨[("error", Json.str "Server error"), ("detail", Json.str m)], rfl,
      fun _ => ⟨"Server error", rfl⟩⟩
  | ok v =>
    cases up with
    | timeout =>
      exact ⟨[("error", Json.str "Server error"),
        ("detail", Json.str "Upstream failure")], rfl,
        fun _ => ⟨"Server error", rfl⟩⟩
    | netfail m =>
      exact ⟨[("error", Json.str "Server error"), ("detail", Json.str m)], rfl,
        fun _ => ⟨"Server error", rfl⟩⟩
    | resp status ctype chunks =>
      show okOrError ((if ¬ isOkStatus status then
          (⟨⟨status, some (Json.obj
            [("error", Json.str "Wordware API error"),
             ("detail", Json.str (concatAll chunks))])⟩, 1⟩ : HResult)
        else if strIncludes ctype "application/json" then
          match parseJson (concatAll chunks) with
          | none => ⟨⟨500, some (serverErr (parseErrMsg (concatAll chunks)))⟩, 1⟩
          | some data =>
            ⟨⟨200, some (Json.obj [("text",
              jsOr (jsGet data "output") (jsOr (jsGet data "text")
                (jsOr (jsGet data "value") (Json.str (stringify2 data)))))])⟩, 1⟩
        else ⟨⟨200, some (Json.obj [("text", Json.str
          (if (streamLoop chunks).1 ≠ "" then (streamLoop chunks).1
           else if (streamLoop chunks).2 ≠ "" then (streamLoop chunks).2
           else "(no output)"))])⟩, 1⟩).resp)
      by_cases hok : isOkStatus status = true
      · rw [if_neg (not_not_intro hok)]
        by_cases hct : strIncludes ctype "application/json" = true
        · rw [if_pos hct]
          cases parseJson (concatAll chunks) with
          | none =>
            exact ⟨[("error", Json.str "Server error"),
              ("detail", Json.str (parseErrMsg (concatAll chunks)))], rfl,
              fun _ => ⟨"Server error", rfl⟩⟩
          | some data =>
            exact ⟨[("text",
              jsOr (jsGet data "output") (jsOr (jsGet data "text")
                (jsOr (jsGet data "value") (Json.str (stringify2 data)))))], rfl,
              fun h => nomatch h⟩
        · rw [if_neg hct]
          exact ⟨[("text", Json.str
            (if (streamLoop chunks).1 ≠ "" then (streamLoop chunks).1
             else if (streamLoop chunks).2 ≠ "" then (streamLoop chunks).2
             else "(no output)"))], rfl, fun h => nomatch h⟩
      · rw [if_pos hok]
        exact ⟨[("error", Json.str "Wordware API error"),
          ("detail", Json.str (concatAll chunks))], rfl,
          fun _ => ⟨"Wordware API error", rfl⟩⟩

/-- C5: for every inbound request and upstream behaviour, both cited
handler revisions return exactly one response; OPTIONS gets the empty 200
preflight response, and every other method gets a JSON-object body that
carries an `error` field on every non-success status - no validation,
upstream, extraction, parse or unexpected failure escapes the handler. -/
theorem c5_structured_responses (req : Req) (up : Upstream) :
    (req.method = "OPTIONS" →
      handler2 req up = ⟨⟨200, none⟩, 0⟩ ∧ handlerP0 req up = ⟨⟨200, none⟩, 0⟩) ∧
    (req.method ≠ "OPTIONS" →
      okOrError (handler2 req up).resp ∧ okOrError (handlerP0 req up).resp) := by
  obtain ⟨m, b⟩ := req
  constructor
  · intro hm
    cases hm
    exact ⟨rfl, rfl⟩
  · intro hm
    constructor
    · by_cases hp : m = "POST"
      · cases hp
        exact okOrErrorHandler2Post b up
      · unfold handler2
        rw [if_neg hm, if_pos hp]
        exact ⟨[("error", Json.str "Method not allowed")], rfl,
          fun _ => ⟨"Method not allowed", rfl⟩⟩
    · by_cases hp : m = "POST"
      · cases hp
        exact okOrErrorHandlerP0Post b up
      · unfold handlerP0
        rw [if_neg hm, if_pos hp]
        exact ⟨[("error", Json.str "Method not allowed")], rfl,
          fun _ => ⟨"Method not allowed", rfl⟩⟩

/-- Witness for C5 at a concrete failing request. -/
theorem c5_structured_responses_witness :
    okOrError (handler2 ⟨"POST", none⟩ (Upstream.resp 500 "" ["boom"])).resp ∧
    okOrError (handlerP0 ⟨"POST", none⟩ (Upstream.resp 500 "" ["boom"])).resp :=
  (c5_structured_responses ⟨"POST", none⟩ (Upstream.resp 500 "" ["boom"])).2
    (by decide)

/-- C6 counterexample: a POST whose `inputs` is the non-empty string
"abc" does NOT get a 400 from the sentinel-revision handler - the
strict-mode property assignment on a primitive throws, and the catch
answers 500 (still with no upstream call). -/
theorem c6_truthy_string_counterexample :
    (handler2 c6req (Upstream.resp 200 "" [])).resp.status = 500 ∧
    (handler2 c6req (Upstream.resp 200 "" [])).resp.status ≠ 400 ∧
    (handler2 c6req (Upstream.resp 200 "" [])).upstreamCalls = 0 :=
  ⟨rfl, by decide, rfl⟩

/-- C6 (amended): a POST with absent or falsy `inputs` gets 400 "Missing
inputs" and no upstream call from the sentinel revision; a truthy
primitive `inputs` there raises a caught TypeError and gets 500 "Server
error" (not 400), still with no upstream call; the first revision, which
also checks `typeof inputs`, answers 400 "Missing or invalid inputs" with
no upstream call whenever `inputs` fails its object test. -/
theorem c6_validation_amended :
    (∀ (b : Option Json) (up : Upstream), bodyInputs b = none →
      handler2 ⟨"POST", b⟩ up = ⟨⟨400, some (errObj "Missing inputs")⟩, 0⟩) ∧
    (∀ (b : Option Json) (v : Json) (up : Upstream),
      bodyInputs b = some v → jsTruthy v = false →
      handler2 ⟨"POST", b⟩ up = ⟨⟨400, some (errObj "Missing inputs")⟩, 0⟩) ∧
    (∀ (b : Option Json) (v : Json) (up : Upstream),
      bodyInputs b = some v → jsTruthy v = true → isPrimValue v = true →
      handler2 ⟨"POST", b⟩ up = ⟨⟨500, some (serverErr typeErrCreateMsg)⟩, 0⟩) ∧
    (∀ (b : Option Json) (bv : Json) (up : Upstream),
      bodyVal1 b = some bv →
      (jsTruthyOpt (jsGet bv "inputs") && objTypeOpt (jsGet bv "inputs")) = false →
      handler1 ⟨"POST", b⟩ true up =
        ⟨⟨400, some (errObj "Missing or invalid inputs")⟩, 0⟩) := by
  refine ⟨fun b up h => ?_, fun b v up h1 h2 => ?_, fun b v up h1 h2 h3 => ?_,
    fun b bv up h1 h2 => ?_⟩
  · have hpre : preflight2 b = .badInputs := by
      unfold preflight2
      rw [h]
    have h0 : handler2 ⟨"POST", b⟩ up = handler2Post b up := rfl
    rw [h0]
    unfold handler2Post
    rw [hpre]
  · have hpre : preflight2 b = .badInputs := by
      unfold preflight2
      rw [h1]
      dsimp only
      rw [h2, if_neg (by decide)]
    have h0 : handler2 ⟨"POST", b⟩ up = handler2Post b up := rfl
    rw [h0]
    unfold handler2Post
    rw [hpre]
  · have hper : personaFix v = .thrown typeErrCreateMsg := by
      cases v with
      | str s => rfl
      | num n => rfl
      | bool bb => rfl
      | null => exact nomatch h3
      | arr es => exact nomatch h3
      | obj fs => exact nomatch h3
    have hpre : preflight2 b = .thrown typeErrCreateMsg := by
      unfold preflight2
      rw [h1]
      dsimp only
      rw [h2, if_pos rfl, hper]
    have h0 : handler2 ⟨"POST", b⟩ up = handler2Post b up := rfl
    rw [h0]
    unfold handler2Post
    rw [hpre]
  · have h0 : handler1 ⟨"POST", b⟩ true up = handler1Post b up := rfl
    rw [h0]
    unfold handler1Post
    rw [h1]
    dsimp only
    rw [if_pos (show ¬ ((jsTruthyOpt (jsGet bv "inputs") &&
      objTypeOpt (jsGet bv "inputs")) = true) by simp [h2])]

/-- Witness for C6 (amended) at a body with no `inputs` field. -/
theorem c6_validation_amended_witness :
    handler2 ⟨"POST", some (Json.obj [])⟩ (Upstream.resp 200 "" []) =
      ⟨⟨400, some (errObj "Missing inputs")⟩, 0⟩ :=
  c6_validation_amended.1 (some (Json.obj [])) (Upstream.resp 200 "" []) rfl

/-- C7: a non-success upstream status is passed through as the response
status with a structured "Wordware API error" body whose detail carries
the upstream body (raw in the sentinel revision, `error`/`message`-aware
via `detail1` in the first revision), with exactly one upstream call and
no retry; in particular upstream 500 with body "boom" yields status 500
and detail "boom" in both revisions. -/
theorem c7_upstream_passthrough :
    (∀ (b : Option Json) (v : Json) (status : Nat) (ct : String)
        (chunks : List String),
      preflight2 b = .ok v → isOkStatus status = false →
      handler2 ⟨"POST", b⟩ (Upstream.resp status ct chunks) =
        ⟨⟨status, some (Json.obj [("error", Json.str "Wordware API error"),
          ("detail", Json.str (concatAll chunks))])⟩, 1⟩) ∧
    (∀ (b : Option Json) (bv : Json) (status : Nat) (ct : String)
        (chunks : List String),
      bodyVal1 b = some bv →
      (jsTruthyOpt (jsGet bv "inputs") && objTypeOpt (jsGet bv "inputs")) = true →
      isOkStatus status = false →
      handler1 ⟨"POST", b⟩ true (Upstream.resp status ct chunks) =
        ⟨⟨status, some (Json.obj [("error", Json.str "Wordware API error"),
          ("detail", detail1 (concatAll chunks))])⟩, 1⟩) ∧
    handler2 ⟨"POST", some (Json.obj [("inputs", Json.obj [])])⟩
        (Upstream.resp 500 "" ["boom"]) =
      ⟨⟨500, some (Json.obj [("error", Json.str "Wordware API error"),
        ("detail", Json.str "boom")])⟩, 1⟩ ∧
    detail1 "boom" = Json.str "boom" := by
  refine ⟨fun b v status ct chunks hpre hnok => ?_,
    fun b bv status ct chunks h1 h2 h3 => ?_, rfl, rfl⟩
  · have h0 : handler2 ⟨"POST", b⟩ (Upstream.resp status ct chunks) =
        handler2Post b (Upstream.resp status ct chunks) := rfl
    rw [h0]
    unfold handler2Post
    rw [hpre]
    show (if isOkStatus status then
        (⟨extractFinal (visibleOf (concatAll chunks)), 1⟩ : HResult)
      else ⟨⟨status, some (Json.obj
        [("error", Json.str "Wordware API error"),
         ("detail", Json.str (concatAll chunks))])⟩, 1⟩) =
      ⟨⟨status, some (Json.obj [("error", Json.str "Wordware API error"),
        ("detail", Json.str (concatAll chunks))])⟩, 1⟩
    rw [if_neg (show ¬ isOkStatus status = true by simp [hnok])]
  · have h0 : handler1 ⟨"POST", b⟩ true (Upstream.resp status ct chunks) =
        handler1Post b (Upstream.resp status ct chunks) := rfl
    rw [h0]
    unfold handler1Post
    rw [h1]
    show (if ¬ (jsTruthyOpt (jsGet bv "inputs") && objTypeOpt (jsGet bv "inputs")) then
        (⟨⟨400, some (errObj "Missing or invalid inputs")⟩, 0⟩ : HResult)
      else if ¬ isOkStatus status then
        ⟨⟨status, some (Json.obj [("error", Json.str "Wordware API error"),
          ("detail", detail1 (concatAll chunks))])⟩, 1⟩
      else if strIncludes ct "application/json" then
        match parseJson (concatAll chunks) with
        | none =>
          ⟨⟨200, some (Json.obj [("json", Json.null),
            ("text", Json.str (concatAll chunks)), ("raw", Json.null)])⟩, 1⟩
        | some raw =>
          ⟨⟨200, some (Json.obj [("json", pickPayload raw),
            ("text", Json.str (stringify2 (pickPayload raw))),
            ("raw", raw)])⟩, 1⟩
      else
        ⟨⟨200, some (Json.obj [("json", Json.null),
          ("text", Json.str (concatAll chunks)), ("raw", Json.null)])⟩, 1⟩) =
      ⟨⟨status, some (Json.obj [("error", Json.str "Wordware API error"),
        ("detail", detail1 (concatAll chunks))])⟩, 1⟩
    rw [if_neg (not_not_intro h2),
      if_pos (show ¬ isOkStatus status = true by simp [h3])]

/-- Witness for C7 at a concrete 503 upstream failure. -/
theorem c7_upstream_passthrough_witness :
    handler2 ⟨"POST", some (Json.obj [("inputs", Json.arr [])])⟩
        (Upstream.resp 503 "" ["down"]) =
      ⟨⟨503, some (Json.obj [("error", Json.str "Wordware API error"),
        ("detail", Json.str (concatAll ["down"]))])⟩, 1⟩ :=
  c7_upstream_passthrough.1 (some (Json.obj [("inputs", Json.arr [])]))
    (Json.arr []) 503 "" ["down"] rfl (by decide)
